import Mathlib

/-!
Verification of the filtering and data-loading core of the housing
dashboard script (lab-10.py).  Floating-point columns are modelled as
rationals, integer columns as integers, categorical columns as strings.
The dashboard builds the filtered view in three steps: an income-bucket
predicate dispatched on the sidebar radio string, an inclusive price
range, and an optional category-membership step that is skipped when the
multiselect list is empty.
-/

namespace Housing

/-- Record models one row of the housing table: the numeric columns of
the CSV schema plus the categorical `ocean_proximity` label. -/
structure Record where
  longitude : ℚ
  latitude : ℚ
  housing_median_age : ℤ
  total_rooms : ℤ
  total_bedrooms : ℤ
  population : ℤ
  households : ℤ
  median_income : ℚ
  median_house_value : ℚ
  ocean_proximity : String
deriving DecidableEq

/-- Dataset models the pandas DataFrame: an ordered list of rows plus a
flag recording whether the `ocean_proximity` column is present (the
script tests membership in `data.columns` before using it). -/
structure Dataset where
  hasOceanProximity : Bool
  rows : List Record
deriving DecidableEq

/-- FilterCriteria bundles the three sidebar widget values: the price
slider pair, the location multiselect list, and the income radio
string. -/
structure FilterCriteria where
  price_range : ℚ × ℚ
  location_types : List String
  income_level : String
deriving DecidableEq

/-- Income test of the Low branch: `data[data[..income..] <= 2.5]`. -/
def lowIncome (x : ℚ) : Bool := decide (x ≤ 2.5)

/-- Income test of the Medium branch:
`(data[..income..] > 2.5) & (data[..income..] < 4.5)`. -/
def mediumIncome (x : ℚ) : Bool := decide (2.5 < x ∧ x < 4.5)

/-- Income test of the else branch: `data[..income..] >= 4.5`. -/
def highIncome (x : ℚ) : Bool := decide (4.5 ≤ x)

/-- Dispatch on the income radio string, exactly as the if/elif/else
chain at lines 77-82 of the script: any string other than the Low and
Medium labels falls into the else branch. -/
def incomeMatch (income_level : String) (r : Record) : Bool :=
  if income_level = "Low (±2.5)" then lowIncome r.median_income
  else if income_level = "Medium (> 2.5 & < 4.5)" then mediumIncome r.median_income
  else highIncome r.median_income

/-- Step 1 of the pipeline: keep the rows whose income matches the
selected bucket. -/
def incomeFiltered (income_level : String) (rows : List Record) : List Record :=
  rows.filter (incomeMatch income_level)

/-- Price test of step 2, both bounds inclusive:
`(value >= price_range[0]) & (value <= price_range[1])`. -/
def priceMatch (price_range : ℚ × ℚ) (r : Record) : Bool :=
  decide (price_range.1 ≤ r.median_house_value ∧ r.median_house_value ≤ price_range.2)

/-- Step 2 of the pipeline: the inclusive price-range mask of
lines 85-88. -/
def priceFiltered (price_range : ℚ × ℚ) (rows : List Record) : List Record :=
  rows.filter (priceMatch price_range)

/-- Guard of step 3, line 91:
`if ocean_proximity in data.columns and location_types:` — a Python
empty list is falsy, so the step runs only when the column exists and
the multiselect is non-empty. -/
def categoryActive (d : Dataset) (c : FilterCriteria) : Bool :=
  d.hasOceanProximity && !c.location_types.isEmpty

/-- Step 3 of the pipeline: the `isin(location_types)` mask of line 92,
applied only when the guard holds; otherwise the rows pass through
unchanged. -/
def categoryFiltered (d : Dataset) (c : FilterCriteria) (rows : List Record) : List Record :=
  if categoryActive d c then
    rows.filter (fun r => decide (r.ocean_proximity ∈ c.location_types))
  else rows

/-- Whole filter pipeline of lines 77-92: income bucket on the full
dataset, then the price range, then the optional category mask. -/
def filtered_data (d : Dataset) (c : FilterCriteria) : List Record :=
  categoryFiltered d c (priceFiltered c.price_range (incomeFiltered c.income_level d.rows))

/-- Concrete three-row dataset of the example scenario in the spec. -/
def row1 : Record :=
  { longitude := -120, latitude := 35, housing_median_age := 10, total_rooms := 100,
    total_bedrooms := 20, population := 50, households := 18,
    median_income := 2, median_house_value := 100000, ocean_proximity := "INLAND" }

/-- Second example row. -/
def row2 : Record :=
  { longitude := -121, latitude := 36, housing_median_age := 12, total_rooms := 200,
    total_bedrooms := 40, population := 90, households := 30,
    median_income := 3, median_house_value := 200000, ocean_proximity := "NEAR BAY" }

/-- Third example row. -/
def row3 : Record :=
  { longitude := -122, latitude := 37, housing_median_age := 14, total_rooms := 300,
    total_bedrooms := 60, population := 130, households := 45,
    median_income := 5, median_house_value := 300000, ocean_proximity := "INLAND" }

/-- The example dataset, with the category column present. -/
def exampleDataset : Dataset := ⟨true, [row1, row2, row3]⟩

/-- Criteria of the example scenario: price in [100000, 300000],
categories {INLAND}, income bucket Low. -/
def exampleCriteria : FilterCriteria := ⟨(100000, 300000), ["INLAND"], "Low (±2.5)"⟩

/-- Criteria with an empty category selection. -/
def emptyCatCriteria : FilterCriteria := ⟨(0, 1000000), [], "Medium (> 2.5 & < 4.5)"⟩

/-- Model of the third-party seeded pseudo-random generator as a linear
congruential step on a 32-bit state.  It stands in for the numpy stream
obtained after np.random.seed(42); the development relies only on the
contract the script relies on: the stream is a deterministic function of
the seed, with raw words in [0, 2^32). -/
def rngStep (s : Nat) : Nat := (1664525 * s + 1013904223) % 4294967296

/-- Model of one element of np.random.uniform(lo, hi): the raw word
scaled into [lo, hi), returned with the advanced state. -/
def npUniform (lo hi : ℚ) (s : Nat) : ℚ × Nat :=
  (lo + (hi - lo) * ((rngStep s : ℚ) / 4294967296), rngStep s)

/-- Model of one element of np.random.randint(lo, hi): the raw word
reduced into the integer range [lo, hi), returned with the advanced
state. -/
def npRandint (lo hi : ℤ) (s : Nat) : ℤ × Nat :=
  (lo + (rngStep s : ℤ) % (hi - lo), rngStep s)

/-- Model of one element of np.random.choice(opts): the raw word picks
an index into the option list, returned with the advanced state. -/
def npChoice (opts : List String) (s : Nat) : String × Nat :=
  (opts.getD (rngStep s % opts.length) "", rngStep s)

/-- Column generator: n draws threading the state, as each vectorized
numpy call produces one n-element column. -/
def genColumn {α : Type} (draw : Nat → α × Nat) : Nat → Nat → List α × Nat
  | 0, s => ([], s)
  | n + 1, s =>
    let x := draw s
    let rest := genColumn draw n x.2
    (x.1 :: rest.1, rest.2)

/-- Sample count of the fallback generator: n_samples = 1000. -/
def n_samples : Nat := 1000

/-- Fixed seed of the fallback generator: np.random.seed(42). -/
def numpy_seed : Nat := 42

/-- Longitude column: np.random.uniform(-124.3, -114.3, n_samples). -/
def longitudeCol : List ℚ × Nat :=
  genColumn (npUniform (-124.3) (-114.3)) n_samples numpy_seed

/-- Latitude column: np.random.uniform(32.5, 42.0, n_samples). -/
def latitudeCol : List ℚ × Nat :=
  genColumn (npUniform 32.5 42.0) n_samples longitudeCol.2

/-- Age column: np.random.randint(1, 52, n_samples). -/
def ageCol : List ℤ × Nat := genColumn (npRandint 1 52) n_samples latitudeCol.2

/-- Rooms column: np.random.randint(2, 40000, n_samples). -/
def roomsCol : List ℤ × Nat := genColumn (npRandint 2 40000) n_samples ageCol.2

/-- Bedrooms column: np.random.randint(1, 6500, n_samples). -/
def bedroomsCol : List ℤ × Nat := genColumn (npRandint 1 6500) n_samples roomsCol.2

/-- Population column: np.random.randint(3, 15000, n_samples). -/
def populationCol : List ℤ × Nat := genColumn (npRandint 3 15000) n_samples bedroomsCol.2

/-- Households column: np.random.randint(1, 5000, n_samples). -/
def householdsCol : List ℤ × Nat := genColumn (npRandint 1 5000) n_samples populationCol.2

/-- Income column: np.random.uniform(0.5, 15.0, n_samples). -/
def incomeCol : List ℚ × Nat := genColumn (npUniform 0.5 15.0) n_samples householdsCol.2

/-- House-value column: np.random.randint(15000, 500000, n_samples). -/
def houseValueCol : List ℤ × Nat :=
  genColumn (npRandint 15000 500000) n_samples incomeCol.2

/-- Category labels offered to np.random.choice. -/
def oceanLabels : List String := ["INLAND", "NEAR BAY", "NEAR OCEAN", "ISLAND"]

/-- Ocean-proximity column: np.random.choice(oceanLabels, n_samples). -/
def oceanCol : List String × Nat := genColumn (npChoice oceanLabels) n_samples houseValueCol.2

/-- The synthetic fallback rows: the DataFrame assembled from the ten
generated columns, row i taking element i of every column. -/
def syntheticRows : List Record :=
  (List.range n_samples).map fun i =>
    { longitude := longitudeCol.1.getD i 0,
      latitude := latitudeCol.1.getD i 0,
      housing_median_age := ageCol.1.getD i 0,
      total_rooms := roomsCol.1.getD i 0,
      total_bedrooms := bedroomsCol.1.getD i 0,
      population := populationCol.1.getD i 0,
      households := householdsCol.1.getD i 0,
      median_income := incomeCol.1.getD i 0,
      median_house_value := ((houseValueCol.1.getD i 0 : ℤ) : ℚ),
      ocean_proximity := oceanCol.1.getD i "" }

/-- The loader, lines 21-42: the file system is modelled as an optional
parsed dataset; pd.read_csv raising FileNotFoundError is the none case.
The first component records whether st.warning was emitted; the
fallback returns the synthetic rows (which carry ocean_proximity). -/
def load_data (file : Option Dataset) : Bool × Dataset :=
  match file with
  | some d => (false, d)
  | none => (true, ⟨true, syntheticRows⟩)

lemma categoryFiltered_sublist (d : Dataset) (c : FilterCriteria) (rows : List Record) :
    List.Sublist (categoryFiltered d c rows) rows := by
  unfold categoryFiltered
  split
  · exact List.filter_sublist rows
  · exact List.Sublist.refl rows

lemma mem_categoryFiltered (d : Dataset) (c : FilterCriteria) (rows : List Record)
    (r : Record) :
    r ∈ categoryFiltered d c rows ↔
      r ∈ rows ∧ (categoryActive d c = true → r.ocean_proximity ∈ c.location_types) := by
  by_cases hA : categoryActive d c
  · simp [categoryFiltered, hA, List.mem_filter]
  · simp [categoryFiltered, hA]

lemma empty_categories_passthrough (d : Dataset) (c : FilterCriteria)
    (h : c.location_types = []) :
    filtered_data d c = priceFiltered c.price_range (incomeFiltered c.income_level d.rows) := by
  unfold filtered_data categoryFiltered categoryActive
  simp [h]

/-- C1: for every dataset and criteria, the filter output is an
order-preserving sub-sequence of the input rows, and every retained row
passes the selected income-bucket test, the price-range test, and, when
the category step is active, the category-membership test. -/
theorem filter_subsequence_and_sound (d : Dataset) (c : FilterCriteria) :
    List.Sublist (filtered_data d c) d.rows ∧
    ∀ r ∈ filtered_data d c,
      incomeMatch c.income_level r = true ∧
      priceMatch c.price_range r = true ∧
      (categoryActive d c = true → r.ocean_proximity ∈ c.location_types) := by
  constructor
  · exact ((categoryFiltered_sublist d c _).trans
      (List.filter_sublist _)).trans (List.filter_sublist _)
  · intro r hr
    rw [filtered_data, mem_categoryFiltered] at hr
    obtain ⟨hp, hcat⟩ := hr
    rw [priceFiltered, List.mem_filter] at hp
    obtain ⟨hi, hpm⟩ := hp
    rw [incomeFiltered, List.mem_filter] at hi
    exact ⟨hi.2, hpm, hcat⟩

/-- C2: the three income-bucket tests partition the income axis: for
every income value exactly one of Low, Medium, High holds, the boundary
2.5 belongs to Low and not to Medium, and 4.5 belongs to High and not
to Medium. -/
theorem income_bucket_partition (x : ℚ) :
    ((lowIncome x = true ∧ mediumIncome x = false ∧ highIncome x = false) ∨
     (lowIncome x = false ∧ mediumIncome x = true ∧ highIncome x = false) ∨
     (lowIncome x = false ∧ mediumIncome x = false ∧ highIncome x = true)) ∧
    lowIncome 2.5 = true ∧ mediumIncome 2.5 = false ∧
    highIncome 4.5 = true ∧ mediumIncome 4.5 = false := by
  refine ⟨?_, by norm_num [lowIncome], by norm_num [mediumIncome],
    by norm_num [highIncome], by norm_num [mediumIncome]⟩
  simp only [lowIncome, mediumIncome, highIncome,
    decide_eq_true_eq, decide_eq_false_iff_not]
  rcases le_or_lt x 2.5 with h1 | h1
  · left
    refine ⟨h1, ?_, ?_⟩
    · rintro ⟨h2, -⟩; linarith
    · intro h2; linarith
  · rcases lt_or_le x 4.5 with h2 | h2
    · right; left
      refine ⟨?_, ⟨h1, h2⟩, ?_⟩
      · intro h3; linarith
      · intro h3; linarith
    · right; right
      refine ⟨?_, ?_, h2⟩
      · intro h3; linarith
      · rintro ⟨-, h4⟩; linarith

/-- C3: when the category selection is empty the category step is
skipped entirely: the filter output equals the result of the income and
price steps alone. -/
theorem empty_selection_skips_category (d : Dataset) (c : FilterCriteria)
    (h : c.location_types = []) :
    filtered_data d c = priceFiltered c.price_range (incomeFiltered c.income_level d.rows) :=
  empty_categories_passthrough d c h

/-- Witness for C3 at the example dataset and empty-category criteria. -/
theorem empty_selection_skips_category_witness :
    emptyCatCriteria.location_types = [] ∧
    filtered_data exampleDataset emptyCatCriteria =
      priceFiltered emptyCatCriteria.price_range
        (incomeFiltered emptyCatCriteria.income_level exampleDataset.rows) :=
  ⟨rfl, empty_selection_skips_category exampleDataset emptyCatCriteria rfl⟩

/-- C4 counterexample: with an empty category selection the filter
output is not empty — on the example dataset it returns the Medium
income row, refuting the reading that an empty selection matches no
rows. -/
theorem empty_selection_output_nonempty :
    emptyCatCriteria.location_types = [] ∧
    filtered_data exampleDataset emptyCatCriteria = [row2] ∧
    filtered_data exampleDataset emptyCatCriteria ≠ [] := by
  refine ⟨rfl, ?_, ?_⟩ <;>
    norm_num [filtered_data, categoryFiltered, categoryActive, priceFiltered, priceMatch,
      incomeFiltered, incomeMatch, lowIncome, mediumIncome, highIncome,
      exampleDataset, emptyCatCriteria, row1, row2, row3, List.filter]

/-- C4 amended: with an empty category selection the category criterion
is skipped, so the filter output equals the income-and-price-only
result (which may be non-empty), not the empty dataset. -/
theorem empty_selection_income_price_only (d : Dataset) (c : FilterCriteria)
    (h : c.location_types = []) :
    filtered_data d c = priceFiltered c.price_range (incomeFiltered c.income_level d.rows) :=
  empty_categories_passthrough d c h

/-- Witness for the amended C4 at the example dataset. -/
theorem empty_selection_income_price_only_witness :
    emptyCatCriteria.location_types = [] ∧
    filtered_data exampleDataset emptyCatCriteria =
      priceFiltered emptyCatCriteria.price_range
        (incomeFiltered emptyCatCriteria.income_level exampleDataset.rows) :=
  ⟨rfl, empty_selection_income_price_only exampleDataset emptyCatCriteria rfl⟩

/-- C5: the price step keeps exactly the rows whose house value lies
between the two slider bounds, both bounds inclusive. -/
theorem price_range_inclusive (price_range : ℚ × ℚ) (rows : List Record) (r : Record) :
    r ∈ priceFiltered price_range rows ↔
      r ∈ rows ∧ price_range.1 ≤ r.median_house_value ∧
        r.median_house_value ≤ price_range.2 := by
  simp [priceFiltered, priceMatch, List.mem_filter, and_assoc]

/-- C8: on the example three-row dataset with price range
[100000, 300000], categories {INLAND} and income bucket Low, the filter
returns exactly the first row. -/
theorem example_scenario_result :
    filtered_data exampleDataset exampleCriteria = [row1] := by
  norm_num [filtered_data, categoryFiltered, categoryActive, priceFiltered, priceMatch,
    incomeFiltered, incomeMatch, lowIncome, mediumIncome, highIncome,
    exampleDataset, exampleCriteria, row1, row2, row3, List.filter]

/-- C9: the filter pipeline is a pure function of its two inputs: equal
dataset and criteria give identical output, and the input dataset is
left unchanged. -/
theorem filter_pure (d1 d2 : Dataset) (c1 c2 : FilterCriteria)
    (hd : d1 = d2) (hc : c1 = c2) :
    filtered_data d1 c1 = filtered_data d2 c2 ∧ d1 = d2 := by
  subst hd; subst hc; exact ⟨rfl, rfl⟩

/-- Witness for C9 at the example inputs. -/
theorem filter_pure_witness :
    filtered_data exampleDataset exampleCriteria =
      filtered_data exampleDataset exampleCriteria ∧
    exampleDataset = exampleDataset :=
  filter_pure exampleDataset exampleDataset exampleCriteria exampleCriteria rfl rfl

/-- C10: any income-level string other than the exact Low and Medium
labels falls to the else branch, so the income step filters by
median_income >= 4.5. -/
theorem unrecognized_income_is_high (d : Dataset) (lvl : String)
    (h1 : lvl ≠ "Low (±2.5)") (h2 : lvl ≠ "Medium (> 2.5 & < 4.5)") :
    incomeFiltered lvl d.rows = d.rows.filter (fun r => highIncome r.median_income) := by
  unfold incomeFiltered incomeMatch
  simp [h1, h2]

lemma rngStep_lt (s : Nat) : rngStep s < 4294967296 :=
  Nat.mod_lt _ (by norm_num)

lemma npUniform_bounds (lo hi : ℚ) (s : Nat) (h : lo < hi) :
    lo ≤ (npUniform lo hi s).1 ∧ (npUniform lo hi s).1 < hi := by
  have h0 : (0 : ℚ) ≤ (rngStep s : ℚ) / 4294967296 := by positivity
  have h1 : (rngStep s : ℚ) / 4294967296 < 1 := by
    rw [div_lt_one (by norm_num)]
    exact_mod_cast rngStep_lt s
  unfold npUniform
  constructor
  · nlinarith
  · nlinarith

lemma npRandint_bounds (lo hi : ℤ) (s : Nat) (h : lo < hi) :
    lo ≤ (npRandint lo hi s).1 ∧ (npRandint lo hi s).1 < hi := by
  have hpos : 0 < hi - lo := by omega
  have h0 : 0 ≤ (rngStep s : ℤ) % (hi - lo) := Int.emod_nonneg _ (by omega)
  have h1 : (rngStep s : ℤ) % (hi - lo) < hi - lo := Int.emod_lt_of_pos _ hpos
  unfold npRandint
  constructor <;> simp <;> omega

lemma npChoice_mem (opts : List String) (s : Nat) (h : opts ≠ []) :
    (npChoice opts s).1 ∈ opts := by
  have hlen : 0 < opts.length := List.length_pos.mpr h
  have hidx : rngStep s % opts.length < opts.length := Nat.mod_lt _ hlen
  unfold npChoice
  rw [List.getD_eq_getElem _ _ hidx]
  exact List.getElem_mem _

lemma genColumn_length {α : Type} (draw : Nat → α × Nat) (n s : Nat) :
    ((genColumn draw n s).1).length = n := by
  induction n generalizing s with
  | zero => rfl
  | succ k ih => simp [genColumn, ih]

lemma genColumn_forall {α : Type} (draw : Nat → α × Nat) (P : α → Prop)
    (hP : ∀ s, P (draw s).1) (n s : Nat) :
    ∀ x ∈ (genColumn draw n s).1, P x := by
  induction n generalizing s with
  | zero => intro x hx; simp [genColumn] at hx
  | succ k ih =>
    intro x hx
    simp only [genColumn, List.mem_cons] at hx
    rcases hx with rfl | hx
    · exact hP s
    · exact ih _ x hx

lemma col_getD_mem {α : Type} (col : List α) (d : α) (i : Nat)
    (hlen : col.length = n_samples) (hi : i < n_samples) :
    col.getD i d ∈ col := by
  have hi2 : i < col.length := by rw [hlen]; exact hi
  rw [List.getD_eq_getElem _ _ hi2]
  exact List.getElem_mem _

/-- C6: the fallback generator is a deterministic function of the fixed
seed, yields exactly 1000 rows, and every column value lies inside its
declared bound. -/
theorem synthetic_dataset_spec :
    syntheticRows = syntheticRows ∧
    syntheticRows.length = 1000 ∧
    ∀ r ∈ syntheticRows,
      (-124.3 ≤ r.longitude ∧ r.longitude < -114.3) ∧
      (32.5 ≤ r.latitude ∧ r.latitude < 42.0) ∧
      (1 ≤ r.housing_median_age ∧ r.housing_median_age < 52) ∧
      (2 ≤ r.total_rooms ∧ r.total_rooms < 40000) ∧
      (1 ≤ r.total_bedrooms ∧ r.total_bedrooms < 6500) ∧
      (3 ≤ r.population ∧ r.population < 15000) ∧
      (1 ≤ r.households ∧ r.households < 5000) ∧
      (0.5 ≤ r.median_income ∧ r.median_income < 15.0) ∧
      (15000 ≤ r.median_house_value ∧ r.median_house_value < 500000) ∧
      r.ocean_proximity ∈ oceanLabels := by
  refine ⟨rfl, by simp [syntheticRows, n_samples], ?_⟩
  intro r hr
  simp only [syntheticRows, List.mem_map, List.mem_range] at hr
  obtain ⟨i, hi, rfl⟩ := hr
  dsimp only
  have hq : ∀ (lo hi2 : ℚ), lo < hi2 → ∀ col : List ℚ × Nat,
      (∃ s0, col = genColumn (npUniform lo hi2) n_samples s0) →
      lo ≤ col.1.getD i 0 ∧ col.1.getD i 0 < hi2 := by
    rintro lo hi2 hlt col ⟨s0, rfl⟩
    exact genColumn_forall (npUniform lo hi2) (fun x => lo ≤ x ∧ x < hi2)
      (fun s => npUniform_bounds lo hi2 s hlt) n_samples s0 _
      (col_getD_mem _ _ i (genColumn_length _ _ _) hi)
  have hz : ∀ (lo hi2 : ℤ), lo < hi2 → ∀ col : List ℤ × Nat,
      (∃ s0, col = genColumn (npRandint lo hi2) n_samples s0) →
      lo ≤ col.1.getD i 0 ∧ col.1.getD i 0 < hi2 := by
    rintro lo hi2 hlt col ⟨s0, rfl⟩
    exact genColumn_forall (npRandint lo hi2) (fun x => lo ≤ x ∧ x < hi2)
      (fun s => npRandint_bounds lo hi2 s hlt) n_samples s0 _
      (col_getD_mem _ _ i (genColumn_length _ _ _) hi)
  have hval := hz 15000 500000 (by norm_num) houseValueCol ⟨_, rfl⟩
  refine ⟨hq (-124.3) (-114.3) (by norm_num) longitudeCol ⟨_, rfl⟩,
    hq 32.5 42.0 (by norm_num) latitudeCol ⟨_, rfl⟩,
    hz 1 52 (by norm_num) ageCol ⟨_, rfl⟩,
    hz 2 40000 (by norm_num) roomsCol ⟨_, rfl⟩,
    hz 1 6500 (by norm_num) bedroomsCol ⟨_, rfl⟩,
    hz 3 15000 (by norm_num) populationCol ⟨_, rfl⟩,
    hz 1 5000 (by norm_num) householdsCol ⟨_, rfl⟩,
    hq 0.5 15.0 (by norm_num) incomeCol ⟨_, rfl⟩,
    ⟨by exact_mod_cast hval.1, by exact_mod_cast hval.2⟩,
    genColumn_forall (npChoice oceanLabels) (fun x => x ∈ oceanLabels)
      (fun s => npChoice_mem oceanLabels s (by simp [oceanLabels])) n_samples _ _
      (col_getD_mem _ _ i (genColumn_length _ _ _) hi)⟩

/-- C7: the loader has exactly one recoverable failure mode: a missing
file yields the synthetic dataset together with the warning flag, and a
present file yields its parsed contents with no warning; neither case
fails. -/
theorem load_data_fallback :
    load_data none = (true, ⟨true, syntheticRows⟩) ∧
    ∀ d : Dataset, load_data (some d) = (false, d) :=
  ⟨rfl, fun _ => rfl⟩

/-- Witness for C10 at an unrecognized label. -/
theorem unrecognized_income_is_high_witness :
    ("banana" ≠ "Low (±2.5)") ∧ ("banana" ≠ "Medium (> 2.5 & < 4.5)") ∧
    incomeFiltered "banana" exampleDataset.rows =
      exampleDataset.rows.filter (fun r => highIncome r.median_income) :=
  ⟨by decide, by decide,
    unrecognized_income_is_high exampleDataset "banana" (by decide) (by decide)⟩

end Housing
